import Mathlib

/-!
Verification of the structured-logging pipeline of the
`kindredcircl_microservice_health` repository.

The development shallowly embeds the Python sources:
  * `utils/custom_json_formatter.py` — `CustomJSONFormatter.format`,
    `CustomJSONFormatter.json_record`, `CustomJSONFormatter._extract_extra_fields`;
  * `utils/logging_helpers.py` — `get_memory_usage`;
  * `utils/logging_config.py` — `SafeQueueListener.handle` (on top of the
    standard library `QueueListener.handle`) and `configure_logging`.

Python dictionaries are embedded as association lists with first-occurrence
lookup and in-place update; Python values that can appear inside a log record
are embedded as `PyVal`; the effectful reads the formatter performs
(hostname, `os.getenv`, `datetime` now, `psutil` memory query) are passed in
explicitly through an `Env` record.
-/

/-- A Python value that can appear in a structured log record.
`datetime` carries the value its `isoformat()` would produce; `obj` stands
for an arbitrary caller-supplied object with no JSON encoding. -/
inductive PyVal where
  | str (s : String)
  | int (n : Int)
  | num (q : ℚ)
  | none
  | datetime (iso : String)
  | obj (descr : String)
  deriving DecidableEq, Repr

/-- A Python `dict` with `str` keys, embedded as an association list.
Real record dictionaries never contain a key twice; `get?` and `set` below
use first-occurrence semantics, which agrees with `dict` on such lists. -/
abbrev Dict := List (String × PyVal)

/-- `d[k] = v`: replace the binding of `k` in place, or append it. -/
def Dict.set : Dict → String → PyVal → Dict
  | [], k, v => [(k, v)]
  | (k', v') :: rest, k, v =>
    if k' = k then (k, v) :: rest else (k', v') :: Dict.set rest k v

/-- `d.get(k)`: the value bound to `k`, if any. -/
def Dict.get? : Dict → String → Option PyVal
  | [], _ => Option.none
  | (k', v) :: rest, k => if k' = k then some v else Dict.get? rest k

@[simp] theorem Dict.get?_set (d : Dict) (k k' : String) (v : PyVal) :
    (d.set k v).get? k' = if k = k' then some v else d.get? k' := by
  induction d with
  | nil => simp [Dict.set, Dict.get?]
  | cons hd tl ih =>
    obtain ⟨k₀, v₀⟩ := hd
    by_cases h : k₀ = k
    · subst h
      by_cases h2 : k₀ = k' <;> simp [Dict.set, Dict.get?, h2]
    · by_cases h2 : k₀ = k'
      · subst h2
        have hne : ¬(k = k₀) := fun hk => h hk.symm
        simp [Dict.set, Dict.get?, h, hne]
      · simp [Dict.set, Dict.get?, h, h2, ih]

@[simp] theorem Dict.get?_append (d₁ d₂ : Dict) (k : String) :
    Dict.get? (d₁ ++ d₂) k = ((Dict.get? d₁ k).or (Dict.get? d₂ k)) := by
  induction d₁ with
  | nil => simp [Dict.get?]
  | cons hd tl ih =>
    obtain ⟨k₀, v₀⟩ := hd
    by_cases h : k₀ = k <;> simp [Dict.get?, h, ih]

/-- Lookup at a key the filter keeps sees through the filter. -/
theorem Dict.get?_filter_of_kept (d : Dict) (p : String × PyVal → Bool) (k : String)
    (hk : ∀ v, p (k, v) = true) :
    Dict.get? (d.filter p) k = Dict.get? d k := by
  induction d with
  | nil => simp
  | cons hd tl ih =>
    obtain ⟨k₀, v₀⟩ := hd
    by_cases h : k₀ = k
    · subst h
      simp [List.filter, hk v₀, Dict.get?]
    · by_cases hp : p (k₀, v₀) <;> simp [List.filter, hp, Dict.get?, h, ih]

/-- Python log severities (`logging` module levels used by this repository). -/
inductive Level where
  | DEBUG
  | INFO
  | WARNING
  | ERROR
  | CRITICAL
  deriving DecidableEq, Repr

/-- `record.levelname`. -/
def Level.levelname : Level → String
  | .DEBUG => "DEBUG"
  | .INFO => "INFO"
  | .WARNING => "WARNING"
  | .ERROR => "ERROR"
  | .CRITICAL => "CRITICAL"

/-- `record.levelno` (`logging.DEBUG = 10`, …, `logging.CRITICAL = 50`). -/
def Level.levelno : Level → Nat
  | .DEBUG => 10
  | .INFO => 20
  | .WARNING => 30
  | .ERROR => 40
  | .CRITICAL => 50

/-- The `log_record.levelname in ["ERROR", "CRITICAL"]` test of
`custom_json_formatter.py` lines 140 and 147. -/
def Level.isErrorOrCritical (l : Level) : Bool :=
  l.levelname == "ERROR" || l.levelname == "CRITICAL"

/-- An attached exception triple `exc_info = (exc_type, exc_value, exc_traceback)`.
`tbValid` records whether `exc_traceback` is a genuine `TracebackType`
(`custom_json_formatter.py` line 143 tests this); `tbText` is the rendered
frame listing used when it is. -/
structure ExcInfo where
  excType : String
  excValue : String
  tbValid : Bool
  tbText : String
  deriving DecidableEq, Repr

/-- `"".join(traceback.format_exception(exc_type, exc_value, exc_traceback))`
with all three components supplied (external `traceback` library, modelled):
with a traceback the frames are listed, without one only the header line
`Type: value` is produced. -/
def format_exception (e : ExcInfo) : String :=
  if e.tbValid then
    "Traceback (most recent call last):\n" ++ e.tbText ++ e.excType ++ ": " ++ e.excValue ++ "\n"
  else
    e.excType ++ ": " ++ e.excValue ++ "\n"

/-- A `logging.LogRecord`. The fixed fields are the standard attributes the
formatter reads; `attrs` holds the dynamic attributes installed on the record
by the `extra=` keyword of a logging call (the route by which request
metadata such as `request_id` or `trace_id` reaches a record). `msg` stands
for a message with no `%`-arguments, so `record.getMessage()` returns it
unchanged. `created` is the integral part of the epoch timestamp and `msecs`
its millisecond part. -/
structure LogRecord where
  name : String
  msg : String
  level : Level
  pathname : String
  filename : String
  module : String
  lineno : Int
  funcName : String
  created : Nat
  msecs : Nat
  relativeCreated : Nat
  process : Int
  thread : Int
  threadName : String
  processName : String
  exc_info : Option ExcInfo
  attrs : Dict
  deriving DecidableEq, Repr

/-- `getattr(record, name, default)` on a `LogRecord`: the standard attributes
always exist; any other name is looked up among the dynamically attached
attributes. (`logging` refuses an `extra=` key that collides with a standard
attribute, so the two domains are disjoint on real records.) -/
def LogRecord.getattr? (r : LogRecord) (name : String) : Option PyVal :=
  match name with
  | "name" => some (.str r.name)
  | "levelname" => some (.str r.level.levelname)
  | "levelno" => some (.int r.level.levelno)
  | "pathname" => some (.str r.pathname)
  | "filename" => some (.str r.filename)
  | "module" => some (.str r.module)
  | "lineno" => some (.int r.lineno)
  | "funcName" => some (.str r.funcName)
  | "process" => some (.int r.process)
  | "thread" => some (.int r.thread)
  | "threadName" => some (.str r.threadName)
  | "processName" => some (.str r.processName)
  | k => Dict.get? r.attrs k

/-- `record.__dict__` restricted to the values representable as `PyVal`:
the standard attributes in their `LogRecord.__init__` insertion order,
followed by the dynamic attributes. (`args` and `exc_info` are listed with a
`PyVal.none` placeholder / omitted; both are unconditionally excluded by
`_extract_extra_fields`, so nothing downstream observes the difference.) -/
def LogRecord.dictItems (r : LogRecord) : Dict :=
  [("name", .str r.name),
   ("msg", .str r.msg),
   ("args", PyVal.none),
   ("levelname", .str r.level.levelname),
   ("levelno", .int r.level.levelno),
   ("pathname", .str r.pathname),
   ("filename", .str r.filename),
   ("module", .str r.module),
   ("exc_text", PyVal.none),
   ("stack_info", PyVal.none),
   ("lineno", .int r.lineno),
   ("funcName", .str r.funcName),
   ("created", .int r.created),
   ("msecs", .int r.msecs),
   ("relativeCreated", .int r.relativeCreated),
   ("thread", .int r.thread),
   ("threadName", .str r.threadName),
   ("processName", .str r.processName),
   ("process", .int r.process)] ++ r.attrs

/-- Result of `psutil.Process().memory_info().rss` — either the resident
set size in bytes, or one of the three `psutil` failures the helper
catches (`logging_helpers.py` line 32). -/
inductive MemResult where
  | ok (rss : Nat)
  | noSuchProcess
  | accessDenied
  | zombieProcess
  deriving DecidableEq, Repr

/-- Python `round` to the nearest integer, ties to the even integer
(banker's rounding), on exact rationals. -/
def roundHalfEven (q : ℚ) : ℤ :=
  let f : ℤ := ⌊q⌋
  let r : ℚ := q - f
  if r < 1 / 2 then f
  else if 1 / 2 < r then f + 1
  else if f % 2 = 0 then f else f + 1

/-- Python `round(x, 2)`. -/
def round2 (q : ℚ) : ℚ := (roundHalfEven (q * 100) : ℚ) / 100

/-- `utils/logging_helpers.py` — `get_memory_usage()`: converts the resident
set size to megabytes rounded to 2 decimal places; any of the three caught
`psutil` failures yields the string `"UNKNOWN"` instead of an exception. -/
def get_memory_usage (m : MemResult) : PyVal :=
  match m with
  | .ok rss => .num (round2 ((rss : ℚ) / (1024 * 1024)))
  | .noSuchProcess => .str "UNKNOWN"
  | .accessDenied => .str "UNKNOWN"
  | .zombieProcess => .str "UNKNOWN"

/-- Left-pad a number with zeros to a minimal width (`%02d` / `%03d` / `%04d`). -/
def padNum (width n : Nat) : String :=
  let s := toString n
  String.mk (List.replicate (width - s.length) '0') ++ s

/-- Proleptic Gregorian civil date from a count of days since 1970-01-01
(Howard Hinnant's `civil_from_days`; models `time.gmtime`'s calendar part).
All divisions act on non-negative values for the epochs this repository can
produce, where truncating and flooring division agree. -/
def civilFromDays (z₀ : Int) : Int × Int × Int :=
  let z := z₀ + 719468
  let era := (if 0 ≤ z then z else z - 146096) / 146097
  let doe := z - era * 146097
  let yoe := (doe - doe / 1460 + doe / 36524 - doe / 146096) / 365
  let y := yoe + era * 400
  let doy := doe - (365 * yoe + yoe / 4 - yoe / 100)
  let mp := (5 * doy + 2) / 153
  let d := doy - (153 * mp + 2) / 5 + 1
  let m := mp + (if mp < 10 then 3 else -9)
  (y + (if m ≤ 2 then 1 else 0), m, d)

/-- `time.strftime("%Y-%m-%dT%H:%M:%S", time.gmtime(t))`. -/
def gmtimeStr (t : Nat) : String :=
  let days : Int := (t : Int) / 86400
  let secs := t % 86400
  let ymd := civilFromDays days
  padNum 4 ymd.1.toNat ++ "-" ++ padNum 2 ymd.2.1.toNat ++ "-" ++ padNum 2 ymd.2.2.toNat ++
    "T" ++ padNum 2 (secs / 3600) ++ ":" ++ padNum 2 (secs % 3600 / 60) ++ ":" ++ padNum 2 (secs % 60)

/-- The timestamp both formatter methods build (`custom_json_formatter.py`
lines 44-46 and 122-123): `strftime` of the creation time plus
`f".{int(record.msecs):03d}Z"` (braces elided: the dot, the zero-padded
millisecond count, and a literal Z). -/
def timestampStr (r : LogRecord) : String :=
  gmtimeStr r.created ++ "." ++ padNum 3 r.msecs ++ "Z"

/-- The ambient process state the formatter reads: `socket.gethostname()`,
`os.getenv("ENVIRONMENT")`, the `datetime` the base library stamps under
`"time"`, the memory-probe outcome, and the behaviour of the external
two-argument `traceback.format_exception(exc_type, exc_value)` call issued
when `exc_traceback` is not a `TracebackType` (on the Python versions in
scope that call may itself raise, which the surrounding handler catches, so
its outcome is kept abstract as an `Except`). -/
structure Env where
  hostname : String
  environment_var : Option String
  now_iso : String
  mem : MemResult
  fmt_pair : String → String → Except String String

/-- `os.getenv("ENVIRONMENT", "development")`. -/
def Env.environment (env : Env) : String :=
  env.environment_var.getD "development"

/-- The logging section of the configuration object
(`config/config.py` — `LoggingConfig`). -/
structure LoggingConfig where
  log_level : String
  file_log_level : String
  console_log_level : String
  log_file_path : String
  error_log_file_path : String
  log_queue_size : Nat
  max_log_file_size : Nat
  max_backup_files : Nat
  enable_memory_logging : Bool
  enable_execution_time_logging : Bool
  enable_request_metadata : Bool
  enable_stack_trace_logging : Bool
  deriving DecidableEq, Repr

/-- `PyVal`s `json.dumps` can encode without a `default=` hook. -/
def PyVal.serializable : PyVal → Bool
  | .str _ => true
  | .int _ => true
  | .num _ => true
  | .none => true
  | .datetime _ => false
  | .obj _ => false

/-- Minimal JSON text for a serializable value (the claims below depend only
on whether serialization succeeds, never on the exact text). -/
def PyVal.render : PyVal → String
  | .str s => "\"" ++ s ++ "\""
  | .int n => toString n
  | .num q => toString q
  | .none => "null"
  | .datetime s => "\"" ++ s ++ "\""
  | .obj s => s

/-- `json.dumps(record)` with no `default=` hook (as called at
`custom_json_formatter.py` line 76): succeeds on serializable values only,
otherwise raises `TypeError`. -/
def dumps (d : Dict) : Except String String :=
  if d.all (fun kv => kv.2.serializable) then
    .ok ("\x7b" ++ String.intercalate ", " (d.map (fun kv => "\"" ++ kv.1 ++ "\": " ++ kv.2.render)) ++ "\x7d")
  else
    .error "TypeError: Object of type object is not JSON serializable"

/-- `getattr(extra, name, default)` where `extra` is a builtin `dict`
instance: a `dict` stores its data as mapping items, not as object
attributes (it has no `__dict__`), so the lookup always falls back to the
default (`custom_json_formatter.py` lines 107-108 rely on this). -/
def dict_getattr (_d : Dict) (_name : String) (default : PyVal) : PyVal :=
  default

namespace CustomJSONFormatter

/-- `json_log_formatter.JSONFormatter.json_record` (external library,
modelled from its published source): writes the message into the extra
dictionary, stamps a `datetime` under `"time"` unless the caller already
supplied one, and renders `exc_info` text when an exception is attached. -/
def base_json_record (env : Env) (message : String) (extra : Dict) (record : LogRecord) : Dict :=
  let d := extra.set "message" (.str message)
  let d := if (d.get? "time").isSome then d else d.set "time" (.datetime env.now_iso)
  match record.exc_info with
  | some e => d.set "exc_info" (.str (format_exception e))
  | Option.none => d

/-- Line 126 of `custom_json_formatter.py`: convert a `datetime` under
`"time"` to its `isoformat()` string, keep any other value, and store `None`
when the key is absent. -/
def timeToStr : Option PyVal → PyVal
  | some (.datetime s) => .str s
  | some v => v
  | Option.none => PyVal.none

/-- Lines 137-151 of `custom_json_formatter.py`: the guarded stack-trace
computation. For ERROR/CRITICAL with an attached exception the trace is
rendered (through the two-argument library call when the traceback object is
not a `TracebackType`; if that call itself raises, the `except` at line 150
stores the retrieval-error message); for ERROR/CRITICAL without an exception
the fixed sentinel is stored; otherwise the record is left untouched. -/
def stackTraceUpdate (env : Env) (log_record : LogRecord) (record : Dict) : Dict :=
  if log_record.level.isErrorOrCritical then
    match log_record.exc_info with
    | some e =>
      if e.tbValid then
        record.set "stack_trace" (.str (format_exception e))
      else
        match env.fmt_pair e.excType e.excValue with
        | .ok s => record.set "stack_trace" (.str s)
        | .error msg => record.set "stack_trace" (.str ("⚠️ Error retrieving stack trace: " ++ msg))
    | Option.none =>
      record.set "stack_trace" (.str "⚠️ Exception occurred, but no exception info was available.")
  else record

/-- `CustomJSONFormatter.json_record` (`custom_json_formatter.py` lines
78-152). `extra0 = Option.none` stands for a non-`dict` argument such as
`None`, normalized to an empty dictionary at lines 90-91; consequently the
`isinstance` test at line 97 is always true and its `else` arm (lines
102-104) is unreachable. After line 93 the Python names `record` and `extra`
alias one mutated dictionary; the truthiness test `if extra` at lines
107-108 therefore sees the current record (which at that point always
contains at least `"message"`), and the inner `getattr` reads object
attributes of that dictionary, which yields the default either way. -/
def json_record (cfg : LoggingConfig) (env : Env) (log_record : LogRecord)
    (message : String) (extra0 : Option Dict) : Dict :=
  let extra := extra0.getD []
  let record := base_json_record env message extra log_record
  let record :=
    if cfg.enable_request_metadata then
      let record := record.set "request_id"
        ((log_record.getattr? "request_id").getD ((extra.get? "request_id").getD (.str "UNKNOWN")))
      let record := record.set "user_id"
        ((log_record.getattr? "user_id").getD ((extra.get? "user_id").getD (.str "UNKNOWN")))
      record.set "feed_type"
        ((log_record.getattr? "feed_type").getD ((extra.get? "feed_type").getD (.str "UNKNOWN")))
    else record
  let record := record.set "trace_id"
    ((log_record.getattr? "trace_id").getD
      (if record ≠ [] then dict_getattr record "trace_id" (.str "UNKNOWN") else .str "UNKNOWN"))
  let record := record.set "span_id"
    ((log_record.getattr? "span_id").getD
      (if record ≠ [] then dict_getattr record "span_id" (.str "UNKNOWN") else .str "UNKNOWN"))
  let record := record.set "module" ((log_record.getattr? "module").getD (.str "UNKNOWN"))
  let record := record.set "function" ((log_record.getattr? "funcName").getD (.str "UNKNOWN"))
  let record := record.set "line" ((log_record.getattr? "lineno").getD (.str "UNKNOWN"))
  let record := record.set "process" ((log_record.getattr? "process").getD (.str "UNKNOWN"))
  let record := record.set "thread" ((log_record.getattr? "thread").getD (.str "UNKNOWN"))
  let record := record.set "hostname" (.str env.hostname)
  let record := record.set "environment" (.str env.environment)
  let record := record.set "timestamp" (.str (timestampStr log_record))
  let record := record.set "time" (timeToStr (record.get? "time"))
  let record :=
    if cfg.enable_execution_time_logging then
      record.set "execution_time_ms" ((log_record.getattr? "execution_time_ms").getD (.str "UNKNOWN"))
    else record
  let record :=
    if cfg.enable_memory_logging then
      record.set "memory_usage_mb" (get_memory_usage env.mem)
    else record
  stackTraceUpdate env log_record record

/-- `CustomJSONFormatter._extract_extra_fields` (lines 154-168): every
`record.__dict__` item whose key is not in the fixed exclusion list. -/
def extractExcluded : List String :=
  ["args", "msg", "exc_info", "exc_text", "created", "msecs", "relativeCreated", "stack_info"]

def _extract_extra_fields (r : LogRecord) : Dict :=
  r.dictItems.filter (fun kv => !(extractExcluded.contains kv.1))

/-- Lines 49-50 of `custom_json_formatter.py`: convert the `"time"` value to
its `isoformat()` string when it is still a `datetime`; otherwise leave the
dictionary unchanged. -/
def timeFixup (s : Dict) : Dict :=
  match s.get? "time" with
  | some (.datetime t) => s.set "time" (.str t)
  | _ => s

/-- `CustomJSONFormatter.format` (lines 33-76) up to, but not including, the
final `json.dumps`: the structured dictionary the formatter builds. The
stack-trace assignment at lines 73-74 fires whenever `record.exc_info` is
set, with no severity test. -/
def format_record (cfg : LoggingConfig) (env : Env) (r : LogRecord) : Dict :=
  let message := r.msg
  let extra := _extract_extra_fields r
  let s := json_record cfg env r message (some extra)
  let s := s.set "levelname" (.str r.level.levelname)
  let s := s.set "timestamp" (.str (timestampStr r))
  let s := timeFixup s
  let s := s.set "module" (.str r.module)
  let s := s.set "function" (.str r.funcName)
  let s := s.set "line" (.int r.lineno)
  let s := s.set "process" (.int r.process)
  let s := s.set "thread" (.int r.thread)
  let s := s.set "hostname" (.str env.hostname)
  let s := s.set "environment" (.str env.environment)
  let s :=
    if cfg.enable_execution_time_logging then
      s.set "execution_time_ms" ((r.getattr? "execution_time_ms").getD (.str "UNKNOWN"))
    else s
  let s :=
    if cfg.enable_memory_logging then
      s.set "memory_usage_mb" (get_memory_usage env.mem)
    else s
  match r.exc_info with
  | some e => s.set "stack_trace" (.str (format_exception e))
  | Option.none => s

/-- `CustomJSONFormatter.format` (lines 33-76) including the final
`json.dumps(structured_record)` call, which has no `default=` hook and hence
raises `TypeError` on a non-serializable value. -/
def format (cfg : LoggingConfig) (env : Env) (r : LogRecord) : Except String String :=
  dumps (format_record cfg env r)

end CustomJSONFormatter

/-- A sink registered with the queue listener: its severity threshold and
whether its `handle` (write path) raises when invoked. -/
structure Handler where
  threshold : Nat
  failsOnHandle : Bool
  deriving DecidableEq, Repr

/-- `logging.handlers.QueueListener.handle` (standard library, with
`respect_handler_level=True` as constructed at `logging_config.py` line 91):
forward the record to each handler, in registration order, whose threshold
the record's level meets; an exception from one handler propagates out of
the loop at once, so the handlers after it are not invoked for this record.
Returns the indices of the handlers that received the record, and the
exception if one was raised. -/
def QueueListener.handleFrom : List Handler → Nat → Nat → List Nat × Option String
  | [], _, _ => ([], Option.none)
  | h :: rest, lvl, i =>
    if h.threshold ≤ lvl then
      if h.failsOnHandle then ([], some "Handler error")
      else
        let r := QueueListener.handleFrom rest lvl (i + 1)
        (i :: r.1, r.2)
    else QueueListener.handleFrom rest lvl (i + 1)

/-- Outcome of dispatching one dequeued record: which sinks received it, and
whether a caught sink failure was reported to the last-resort diagnostic
channel (the `print` at `logging_config.py` line 27). -/
structure HandleOutcome where
  delivered : List Nat
  errorReported : Bool
  deriving DecidableEq, Repr

/-- `SafeQueueListener.handle` (`logging_config.py` lines 20-27): the whole
inherited per-record dispatch is wrapped in one `try`; a raised exception is
caught and printed, and never escapes to the worker loop. -/
def SafeQueueListener.handle (handlers : List Handler) (lvl : Nat) : HandleOutcome :=
  let r := QueueListener.handleFrom handlers lvl 0
  ⟨r.1, r.2.isSome⟩

/-- The worker loop (`QueueListener._monitor`) over the levels of the queued
records: since `SafeQueueListener.handle` never lets an exception escape,
every queued record is processed in order. -/
def SafeQueueListener.monitor (handlers : List Handler) (queued : List Nat) : List HandleOutcome :=
  queued.map (SafeQueueListener.handle handlers)

/-- The indices (counting from `i`) of the handlers whose threshold the
record level meets — the sinks that should receive the record. -/
def thresholdIndicesFrom : List Handler → Nat → Nat → List Nat
  | [], _, _ => []
  | h :: rest, lvl, i =>
    if h.threshold ≤ lvl then i :: thresholdIndicesFrom rest lvl (i + 1)
    else thresholdIndicesFrom rest lvl (i + 1)

/-- State of the process-wide root logger mutated by `configure_logging`. -/
structure RootLoggerState where
  handlers : List String
  level : String
  propagate : Bool
  deriving DecidableEq, Repr

/-- The effectful statements of `configure_logging` (`logging_config.py`
lines 45-123) in program order, each as a label (used as the cause message
position when a failure is injected there) together with its effect on the
root logger. Only the root-logger mutations at lines 96-103 change the
modelled state; directory, file, handler-object, queue and listener
construction act on resources outside it. The `clear` at line 97 runs only
when handlers are present, mirroring the `hasHandlers()` guard at line 96. -/
def bootstrapSteps (cfg : LoggingConfig) : List (String × (RootLoggerState → RootLoggerState)) :=
  [("makedirs log dir", id),
   ("makedirs error dir", id),
   ("create and chmod log file", id),
   ("create and chmod error file", id),
   ("construct formatter", id),
   ("construct queue and queue handler", id),
   ("construct file handler", id),
   ("construct error handler", id),
   ("construct stream handler", id),
   ("construct and start listener", id),
   ("clear existing handlers", fun s => if s.handlers.isEmpty then s else { s with handlers := [] }),
   ("addHandler stream_handler", fun s => { s with handlers := s.handlers ++ ["stream_handler"] }),
   ("addHandler file_handler", fun s => { s with handlers := s.handlers ++ ["file_handler"] }),
   ("addHandler queue_handler", fun s => { s with handlers := s.handlers ++ ["queue_handler"] }),
   ("setLevel root", fun s => { s with level := cfg.log_level }),
   ("disable propagate", fun s => { s with propagate := false }),
   ("configure error logger", id),
   ("replay deferred config errors", id),
   ("log startup memory usage", id),
   ("set include_stack_trace attribute", id)]

/-- Which primitive statement, if any, raises during bootstrap, and the
`str(e)` of what it raises. -/
structure FailureSpec where
  failStep : Option Nat
  failMsg : String
  deriving DecidableEq, Repr

/-- Run the bootstrap statements from index `i`. A failure at the current
index raises before the statement's effect lands; the single `except` at
`logging_config.py` lines 126-127 turns it into one
`LoggingConfigurationError` whose message wraps the original cause. Returns
the call's result together with the root-logger state left behind. -/
def runBootstrapFrom (fs : FailureSpec) :
    List (String × (RootLoggerState → RootLoggerState)) → Nat → RootLoggerState →
    Except String RootLoggerState × RootLoggerState
  | [], _, s => (.ok s, s)
  | (_, f) :: rest, i, s =>
    if fs.failStep = some i then
      (.error ("❌ Error configuring logging: " ++ fs.failMsg), s)
    else runBootstrapFrom fs rest (i + 1) (f s)

/-- `configure_logging` (`logging_config.py` lines 29-127) as a function of
the configuration, the injected failure and the pre-existing root logger:
the result (the configured logger, or the raised `LoggingConfigurationError`
message) paired with the root-logger state after the call. -/
def configure_logging (cfg : LoggingConfig) (fs : FailureSpec) (init : RootLoggerState) :
    Except String RootLoggerState × RootLoggerState :=
  runBootstrapFrom fs (bootstrapSteps cfg) 0 init

@[simp] theorem Dict.get?_dite (b : Prop) [Decidable b] (d₁ d₂ : Dict) (k : String) :
    Dict.get? (if b then d₁ else d₂) k = if b then d₁.get? k else d₂.get? k := by
  split <;> rfl

theorem CustomJSONFormatter.timeFixup_get?_ne (s : Dict) (k : String) (h : ¬(k = "time")) :
    (CustomJSONFormatter.timeFixup s).get? k = s.get? k := by
  unfold CustomJSONFormatter.timeFixup
  split
  · simp only [Dict.get?_set]
    rw [if_neg (Ne.symm h)]
  · rfl

theorem CustomJSONFormatter.stackTraceUpdate_get?_ne (env : Env) (lr : LogRecord) (d : Dict)
    (k : String) (h : ¬(k = "stack_trace")) :
    (CustomJSONFormatter.stackTraceUpdate env lr d).get? k = d.get? k := by
  unfold CustomJSONFormatter.stackTraceUpdate
  have hne : ¬("stack_trace" = k) := fun hk => h hk.symm
  split
  · split
    · split
      · simp [hne]
      · split <;> simp [hne]
    · simp [hne]
  · rfl

namespace CustomJSONFormatter

theorem extract_get?_request_id (r : LogRecord) :
    Dict.get? (_extract_extra_fields r) "request_id" = r.attrs.get? "request_id" := by
  unfold _extract_extra_fields
  rw [Dict.get?_filter_of_kept _ _ _ (fun v => rfl)]
  simp [LogRecord.dictItems, Dict.get?]

theorem extract_get?_user_id (r : LogRecord) :
    Dict.get? (_extract_extra_fields r) "user_id" = r.attrs.get? "user_id" := by
  unfold _extract_extra_fields
  rw [Dict.get?_filter_of_kept _ _ _ (fun v => rfl)]
  simp [LogRecord.dictItems, Dict.get?]

theorem extract_get?_feed_type (r : LogRecord) :
    Dict.get? (_extract_extra_fields r) "feed_type" = r.attrs.get? "feed_type" := by
  unfold _extract_extra_fields
  rw [Dict.get?_filter_of_kept _ _ _ (fun v => rfl)]
  simp [LogRecord.dictItems, Dict.get?]

theorem extract_get?_execution_time_ms (r : LogRecord) :
    Dict.get? (_extract_extra_fields r) "execution_time_ms" = r.attrs.get? "execution_time_ms" := by
  unfold _extract_extra_fields
  rw [Dict.get?_filter_of_kept _ _ _ (fun v => rfl)]
  simp [LogRecord.dictItems, Dict.get?]

theorem extract_get?_memory_usage_mb (r : LogRecord) :
    Dict.get? (_extract_extra_fields r) "memory_usage_mb" = r.attrs.get? "memory_usage_mb" := by
  unfold _extract_extra_fields
  rw [Dict.get?_filter_of_kept _ _ _ (fun v => rfl)]
  simp [LogRecord.dictItems, Dict.get?]

theorem extract_get?_stack_trace (r : LogRecord) :
    Dict.get? (_extract_extra_fields r) "stack_trace" = r.attrs.get? "stack_trace" := by
  unfold _extract_extra_fields
  rw [Dict.get?_filter_of_kept _ _ _ (fun v => rfl)]
  simp [LogRecord.dictItems, Dict.get?]

/-- With an attached exception, the emitted dictionary's `stack_trace` is the
fully rendered exception, whatever the severity: the assignment at lines
73-74 of `format` runs last and tests only `record.exc_info`. -/
theorem fr_stack_trace_of_exc (cfg : LoggingConfig) (env : Env) (r : LogRecord)
    (e : ExcInfo) (he : r.exc_info = some e) :
    (format_record cfg env r).get? "stack_trace" = some (.str (format_exception e)) := by
  unfold format_record
  simp [he, timeFixup_get?_ne, stackTraceUpdate_get?_ne, json_record]

/-- Without an attached exception and below ERROR, `stack_trace` falls all
the way through to whatever dynamic attribute the record itself carried. -/
theorem fr_stack_trace_below (cfg : LoggingConfig) (env : Env) (r : LogRecord)
    (hl : r.level.isErrorOrCritical = false) (he : r.exc_info = Option.none) :
    (format_record cfg env r).get? "stack_trace" = r.attrs.get? "stack_trace" := by
  unfold format_record
  simp only [he]
  simp [timeFixup_get?_ne, stackTraceUpdate, hl, he, json_record, base_json_record,
    extract_get?_stack_trace]

/-- Without an attached exception at ERROR/CRITICAL severity, `stack_trace`
is the fixed sentinel installed by lines 147-148. -/
theorem fr_stack_trace_sentinel (cfg : LoggingConfig) (env : Env) (r : LogRecord)
    (hl : r.level.isErrorOrCritical = true) (he : r.exc_info = Option.none) :
    (format_record cfg env r).get? "stack_trace" =
      some (.str "⚠️ Exception occurred, but no exception info was available.") := by
  unfold format_record
  simp only [he]
  simp [timeFixup_get?_ne, stackTraceUpdate, hl, he, json_record]

/-- With execution-time logging enabled, the field is present: the record's
own `execution_time_ms` attribute, defaulted to `"UNKNOWN"`. -/
theorem fr_exec_on (cfg : LoggingConfig) (env : Env) (r : LogRecord)
    (hf : cfg.enable_execution_time_logging = true) :
    (format_record cfg env r).get? "execution_time_ms" =
      some ((r.getattr? "execution_time_ms").getD (.str "UNKNOWN")) := by
  unfold format_record
  rcases hre : r.exc_info with _ | e <;>
    simp [hre, hf, timeFixup_get?_ne, stackTraceUpdate_get?_ne, json_record]

/-- With execution-time logging disabled, the formatter never writes the
field; only a dynamic attribute of the record itself can supply it. -/
theorem fr_exec_off (cfg : LoggingConfig) (env : Env) (r : LogRecord)
    (hf : cfg.enable_execution_time_logging = false) :
    (format_record cfg env r).get? "execution_time_ms" =
      r.attrs.get? "execution_time_ms" := by
  unfold format_record
  rcases hre : r.exc_info with _ | e <;>
    simp [hre, hf, timeFixup_get?_ne, stackTraceUpdate_get?_ne, json_record,
      base_json_record, extract_get?_execution_time_ms]

/-- With memory logging enabled, the field is present and holds the memory
probe's result. -/
theorem fr_mem_on (cfg : LoggingConfig) (env : Env) (r : LogRecord)
    (hf : cfg.enable_memory_logging = true) :
    (format_record cfg env r).get? "memory_usage_mb" = some (get_memory_usage env.mem) := by
  unfold format_record
  rcases hre : r.exc_info with _ | e <;>
    simp [hre, hf, timeFixup_get?_ne, stackTraceUpdate_get?_ne, json_record]

/-- With memory logging disabled, the formatter never writes the field. -/
theorem fr_mem_off (cfg : LoggingConfig) (env : Env) (r : LogRecord)
    (hf : cfg.enable_memory_logging = false) :
    (format_record cfg env r).get? "memory_usage_mb" =
      r.attrs.get? "memory_usage_mb" := by
  unfold format_record
  rcases hre : r.exc_info with _ | e <;>
    simp [hre, hf, timeFixup_get?_ne, stackTraceUpdate_get?_ne, json_record,
      base_json_record, extract_get?_memory_usage_mb]

end CustomJSONFormatter

namespace CustomJSONFormatter

/-- With request metadata enabled, `request_id` is the record's dynamic
attribute when present, else `"UNKNOWN"` (the `extra` fallback of line 98
reads the same dynamic attributes, so the two routes coincide). -/
theorem fr_request_id_on (cfg : LoggingConfig) (env : Env) (r : LogRecord)
    (hf : cfg.enable_request_metadata = true) :
    (format_record cfg env r).get? "request_id" =
      some ((r.attrs.get? "request_id").getD (.str "UNKNOWN")) := by
  unfold format_record
  rcases hre : r.exc_info with _ | e <;>
  · simp [hre, hf, timeFixup_get?_ne, stackTraceUpdate_get?_ne, json_record,
      base_json_record, extract_get?_request_id, LogRecord.getattr?]
    cases ho : r.attrs.get? "request_id" <;> simp [ho]

theorem fr_user_id_on (cfg : LoggingConfig) (env : Env) (r : LogRecord)
    (hf : cfg.enable_request_metadata = true) :
    (format_record cfg env r).get? "user_id" =
      some ((r.attrs.get? "user_id").getD (.str "UNKNOWN")) := by
  unfold format_record
  rcases hre : r.exc_info with _ | e <;>
  · simp [hre, hf, timeFixup_get?_ne, stackTraceUpdate_get?_ne, json_record,
      base_json_record, extract_get?_user_id, LogRecord.getattr?]
    cases ho : r.attrs.get? "user_id" <;> simp [ho]

theorem fr_feed_type_on (cfg : LoggingConfig) (env : Env) (r : LogRecord)
    (hf : cfg.enable_request_metadata = true) :
    (format_record cfg env r).get? "feed_type" =
      some ((r.attrs.get? "feed_type").getD (.str "UNKNOWN")) := by
  unfold format_record
  rcases hre : r.exc_info with _ | e <;>
  · simp [hre, hf, timeFixup_get?_ne, stackTraceUpdate_get?_ne, json_record,
      base_json_record, extract_get?_feed_type, LogRecord.getattr?]
    cases ho : r.attrs.get? "feed_type" <;> simp [ho]

/-- With request metadata disabled, lines 96-104 are skipped entirely, so
`request_id` can only come from a dynamic attribute of the record. -/
theorem fr_request_id_off (cfg : LoggingConfig) (env : Env) (r : LogRecord)
    (hf : cfg.enable_request_metadata = false) :
    (format_record cfg env r).get? "request_id" = r.attrs.get? "request_id" := by
  unfold format_record
  rcases hre : r.exc_info with _ | e <;>
    simp [hre, hf, timeFixup_get?_ne, stackTraceUpdate_get?_ne, json_record,
      base_json_record, extract_get?_request_id]

theorem fr_user_id_off (cfg : LoggingConfig) (env : Env) (r : LogRecord)
    (hf : cfg.enable_request_metadata = false) :
    (format_record cfg env r).get? "user_id" = r.attrs.get? "user_id" := by
  unfold format_record
  rcases hre : r.exc_info with _ | e <;>
    simp [hre, hf, timeFixup_get?_ne, stackTraceUpdate_get?_ne, json_record,
      base_json_record, extract_get?_user_id]

theorem fr_feed_type_off (cfg : LoggingConfig) (env : Env) (r : LogRecord)
    (hf : cfg.enable_request_metadata = false) :
    (format_record cfg env r).get? "feed_type" = r.attrs.get? "feed_type" := by
  unfold format_record
  rcases hre : r.exc_info with _ | e <;>
    simp [hre, hf, timeFixup_get?_ne, stackTraceUpdate_get?_ne, json_record,
      base_json_record, extract_get?_feed_type]

/-- `trace_id` is written by line 107 on every call, independent of the
`enable_request_metadata` flag: the record's dynamic attribute when present,
else `"UNKNOWN"` (the `extra` fallback is dead, see `dict_getattr`). -/
theorem fr_trace_id (cfg : LoggingConfig) (env : Env) (r : LogRecord) :
    (format_record cfg env r).get? "trace_id" =
      some ((r.attrs.get? "trace_id").getD (.str "UNKNOWN")) := by
  unfold format_record
  rcases hre : r.exc_info with _ | e <;>
    simp [hre, timeFixup_get?_ne, stackTraceUpdate_get?_ne, json_record,
      dict_getattr, LogRecord.getattr?]

/-- `span_id` is written by line 108 on every call, independent of the
`enable_request_metadata` flag. -/
theorem fr_span_id (cfg : LoggingConfig) (env : Env) (r : LogRecord) :
    (format_record cfg env r).get? "span_id" =
      some ((r.attrs.get? "span_id").getD (.str "UNKNOWN")) := by
  unfold format_record
  rcases hre : r.exc_info with _ | e <;>
    simp [hre, timeFixup_get?_ne, stackTraceUpdate_get?_ne, json_record,
      dict_getattr, LogRecord.getattr?]

end CustomJSONFormatter

/-- The repository's default logging configuration
(`config/config.py` lines 132-145, all feature flags on). -/
def defaultLoggingConfig : LoggingConfig :=
  { log_level := "INFO"
    file_log_level := "DEBUG"
    console_log_level := "WARNING"
    log_file_path := "logs/health_service.log"
    error_log_file_path := "logs/error.log"
    log_queue_size := 10000
    max_log_file_size := 5000000
    max_backup_files := 5
    enable_memory_logging := true
    enable_execution_time_logging := true
    enable_request_metadata := true
    enable_stack_trace_logging := true }

/-- A concrete ambient environment for witnesses: memory probe denied, no
`ENVIRONMENT` variable, and the two-argument trace call raising as the
affected Python versions do. -/
def sampleEnv : Env :=
  { hostname := "host-1"
    environment_var := Option.none
    now_iso := "2026-10-12T00:00:00"
    mem := .accessDenied
    fmt_pair := fun _ _ => .error "Both or neither of value and tb must be given" }

/-- A plain INFO record with no exception and no dynamic attributes. -/
def sampleRecord : LogRecord :=
  { name := "test_logger"
    msg := "Test log message"
    level := .INFO
    pathname := "/app/tests/utils/test_logging.py"
    filename := "test_logging.py"
    module := "test_logging"
    lineno := 10
    funcName := "test_fn"
    created := 1760227200
    msecs := 123
    relativeCreated := 5
    process := 1234
    thread := 5678
    threadName := "MainThread"
    processName := "MainProcess"
    exc_info := Option.none
    attrs := [] }

/-- A concrete attached exception with a genuine traceback object. -/
def sampleExc : ExcInfo :=
  { excType := "ValueError"
    excValue := "Test error"
    tbValid := true
    tbText := "  File x, line 1, in test\n" }

/-- C1, counterexample: an INFO record (severity strictly below ERROR) with
an attached exception triple. The claim says the emitted record contains no
`stack_trace` field; the code emits one, because the assignment at lines
73-74 of `format` tests only `record.exc_info`, never the severity. -/
theorem C1_counterexample :
    ({ sampleRecord with exc_info := some sampleExc } : LogRecord).level.levelno <
        Level.levelno Level.ERROR ∧
    ((CustomJSONFormatter.format_record defaultLoggingConfig sampleEnv
        { sampleRecord with exc_info := some sampleExc }).get? "stack_trace").isSome = true := by
  refine ⟨by decide, ?_⟩
  rw [CustomJSONFormatter.fr_stack_trace_of_exc _ _ _ sampleExc rfl]
  rfl

/-- C1, amended: for a record of severity strictly below ERROR that does not
itself carry a `stack_trace` attribute, the emitted record contains a
`stack_trace` field if and only if an exception triple is attached
(`format` adds it unconditionally on severity at lines 73-74; `json_record`
alone never adds it below ERROR). -/
theorem C1_stack_trace_below_error (cfg : LoggingConfig) (env : Env) (r : LogRecord)
    (hl : r.level.levelno < Level.levelno Level.ERROR)
    (ha : r.attrs.get? "stack_trace" = Option.none) :
    ((CustomJSONFormatter.format_record cfg env r).get? "stack_trace").isSome =
      r.exc_info.isSome := by
  have hec : r.level.isErrorOrCritical = false := by
    revert hl
    cases r.level <;> decide
  rcases he : r.exc_info with _ | e
  · rw [CustomJSONFormatter.fr_stack_trace_below cfg env r hec he, ha]
    rfl
  · rw [CustomJSONFormatter.fr_stack_trace_of_exc cfg env r e he]
    rfl

/-- C1, witness for the amended theorem at a concrete record. -/
theorem C1_witness :
    sampleRecord.level.levelno < Level.levelno Level.ERROR ∧
    sampleRecord.attrs.get? "stack_trace" = Option.none ∧
    ((CustomJSONFormatter.format_record defaultLoggingConfig sampleEnv sampleRecord).get?
        "stack_trace").isSome = sampleRecord.exc_info.isSome :=
  ⟨by decide, rfl, C1_stack_trace_below_error defaultLoggingConfig sampleEnv sampleRecord
    (by decide) rfl⟩

/-- The default configuration with request metadata disabled. -/
def cfgNoMeta : LoggingConfig :=
  { defaultLoggingConfig with enable_request_metadata := false }

/-- C2, counterexample: with `enable_request_metadata` disabled the claim
says none of the five request-metadata fields appear, yet `trace_id` and
`span_id` are present (as `"UNKNOWN"`): lines 107-108 sit outside the
`enable_request_metadata` guard. -/
theorem C2_counterexample :
    cfgNoMeta.enable_request_metadata = false ∧
    (CustomJSONFormatter.format_record cfgNoMeta sampleEnv sampleRecord).get? "trace_id" =
      some (.str "UNKNOWN") ∧
    (CustomJSONFormatter.format_record cfgNoMeta sampleEnv sampleRecord).get? "span_id" =
      some (.str "UNKNOWN") := by
  refine ⟨rfl, ?_, ?_⟩
  · rw [CustomJSONFormatter.fr_trace_id]
    rfl
  · rw [CustomJSONFormatter.fr_span_id]
    rfl

/-- C2, amended: when `enable_request_metadata` is enabled, each of the five
fields is copied from the record's event metadata when present and defaults
to `"UNKNOWN"`; when it is disabled, `request_id`, `user_id` and `feed_type`
are omitted (absent unless the record itself carries such an attribute), but
`trace_id` and `span_id` are still emitted unconditionally. -/
theorem C2_request_metadata_fields (cfg : LoggingConfig) (env : Env) (r : LogRecord) :
    (cfg.enable_request_metadata = true →
      (CustomJSONFormatter.format_record cfg env r).get? "request_id" =
        some ((r.attrs.get? "request_id").getD (.str "UNKNOWN")) ∧
      (CustomJSONFormatter.format_record cfg env r).get? "user_id" =
        some ((r.attrs.get? "user_id").getD (.str "UNKNOWN")) ∧
      (CustomJSONFormatter.format_record cfg env r).get? "feed_type" =
        some ((r.attrs.get? "feed_type").getD (.str "UNKNOWN"))) ∧
    (cfg.enable_request_metadata = false →
      (r.attrs.get? "request_id" = Option.none →
        (CustomJSONFormatter.format_record cfg env r).get? "request_id" = Option.none) ∧
      (r.attrs.get? "user_id" = Option.none →
        (CustomJSONFormatter.format_record cfg env r).get? "user_id" = Option.none) ∧
      (r.attrs.get? "feed_type" = Option.none →
        (CustomJSONFormatter.format_record cfg env r).get? "feed_type" = Option.none)) ∧
    (CustomJSONFormatter.format_record cfg env r).get? "trace_id" =
      some ((r.attrs.get? "trace_id").getD (.str "UNKNOWN")) ∧
    (CustomJSONFormatter.format_record cfg env r).get? "span_id" =
      some ((r.attrs.get? "span_id").getD (.str "UNKNOWN")) := by
  refine ⟨fun hf => ⟨?_, ?_, ?_⟩, fun hf => ⟨fun ha => ?_, fun ha => ?_, fun ha => ?_⟩, ?_, ?_⟩
  · exact CustomJSONFormatter.fr_request_id_on cfg env r hf
  · exact CustomJSONFormatter.fr_user_id_on cfg env r hf
  · exact CustomJSONFormatter.fr_feed_type_on cfg env r hf
  · rw [CustomJSONFormatter.fr_request_id_off cfg env r hf, ha]
  · rw [CustomJSONFormatter.fr_user_id_off cfg env r hf, ha]
  · rw [CustomJSONFormatter.fr_feed_type_off cfg env r hf, ha]
  · exact CustomJSONFormatter.fr_trace_id cfg env r
  · exact CustomJSONFormatter.fr_span_id cfg env r

/-- A record carrying all five request-metadata fields as event metadata. -/
def recWithMeta : LogRecord :=
  { sampleRecord with attrs :=
      [("request_id", .str "req-1"), ("user_id", .str "u-9"), ("feed_type", .str "home_feed"),
       ("trace_id", .str "tr-3"), ("span_id", .str "sp-4")] }

/-- C2, witness for the amended theorem: the enabled half at a record whose
metadata supplies all five fields, with each implication discharged. -/
theorem C2_witness :
    defaultLoggingConfig.enable_request_metadata = true ∧
    (CustomJSONFormatter.format_record defaultLoggingConfig sampleEnv recWithMeta).get?
        "request_id" = some ((recWithMeta.attrs.get? "request_id").getD (.str "UNKNOWN")) ∧
    (CustomJSONFormatter.format_record defaultLoggingConfig sampleEnv recWithMeta).get?
        "trace_id" = some ((recWithMeta.attrs.get? "trace_id").getD (.str "UNKNOWN")) :=
  ⟨rfl,
   ((C2_request_metadata_fields defaultLoggingConfig sampleEnv recWithMeta).1 rfl).1,
   (C2_request_metadata_fields defaultLoggingConfig sampleEnv recWithMeta).2.2.1⟩

/-- The default configuration with stack-trace logging disabled. -/
def cfgNoStack : LoggingConfig :=
  { defaultLoggingConfig with enable_stack_trace_logging := false }

/-- An ERROR record with an attached exception. -/
def recErrorExc : LogRecord :=
  { sampleRecord with level := .ERROR, exc_info := some sampleExc }

/-- C6, counterexample: with `enable_stack_trace_logging` disabled, the
claim says `stack_trace` is absent from every emitted record; yet an ERROR
record with an attached exception still carries one — the flag only makes
`configure_logging` set an `include_stack_trace` attribute the formatter
never reads. -/
theorem C6_counterexample :
    cfgNoStack.enable_stack_trace_logging = false ∧
    (CustomJSONFormatter.format_record cfgNoStack sampleEnv recErrorExc).get? "stack_trace" =
      some (.str (format_exception sampleExc)) :=
  ⟨rfl, CustomJSONFormatter.fr_stack_trace_of_exc cfgNoStack sampleEnv recErrorExc sampleExc rfl⟩

/-- C6, amended: for a record carrying none of the governed keys as its own
metadata, `execution_time_ms`, `memory_usage_mb` and `request_id` are
present exactly when their flags are enabled; but `stack_trace` presence is
decided by the exception attachment and the severity alone, and the emitted
record is entirely independent of `enable_stack_trace_logging`. -/
theorem C6_flag_governance (cfg : LoggingConfig) (env : Env) (r : LogRecord) (b : Bool)
    (hexec : r.attrs.get? "execution_time_ms" = Option.none)
    (hmem : r.attrs.get? "memory_usage_mb" = Option.none)
    (hreq : r.attrs.get? "request_id" = Option.none)
    (hst : r.attrs.get? "stack_trace" = Option.none) :
    ((CustomJSONFormatter.format_record cfg env r).get? "execution_time_ms").isSome =
      cfg.enable_execution_time_logging ∧
    ((CustomJSONFormatter.format_record cfg env r).get? "memory_usage_mb").isSome =
      cfg.enable_memory_logging ∧
    ((CustomJSONFormatter.format_record cfg env r).get? "request_id").isSome =
      cfg.enable_request_metadata ∧
    ((CustomJSONFormatter.format_record cfg env r).get? "stack_trace").isSome =
      (r.exc_info.isSome || r.level.isErrorOrCritical) ∧
    CustomJSONFormatter.format_record { cfg with enable_stack_trace_logging := b } env r =
      CustomJSONFormatter.format_record cfg env r := by
  refine ⟨?_, ?_, ?_, ?_, ?_⟩
  · cases hb : cfg.enable_execution_time_logging
    · rw [CustomJSONFormatter.fr_exec_off cfg env r hb, hexec]
      rfl
    · rw [CustomJSONFormatter.fr_exec_on cfg env r hb]
      rfl
  · cases hb : cfg.enable_memory_logging
    · rw [CustomJSONFormatter.fr_mem_off cfg env r hb, hmem]
      rfl
    · rw [CustomJSONFormatter.fr_mem_on cfg env r hb]
      rfl
  · cases hb : cfg.enable_request_metadata
    · rw [CustomJSONFormatter.fr_request_id_off cfg env r hb, hreq]
      rfl
    · rw [CustomJSONFormatter.fr_request_id_on cfg env r hb]
      rfl
  · rcases he : r.exc_info with _ | e
    · cases hec : r.level.isErrorOrCritical
      · rw [CustomJSONFormatter.fr_stack_trace_below cfg env r hec he, hst]
        rfl
      · rw [CustomJSONFormatter.fr_stack_trace_sentinel cfg env r hec he]
        rfl
    · rw [CustomJSONFormatter.fr_stack_trace_of_exc cfg env r e he]
      rfl
  · rfl

/-- C6, witness for the amended theorem at a concrete record with no
governed metadata keys of its own. -/
theorem C6_witness :
    sampleRecord.attrs.get? "execution_time_ms" = Option.none ∧
    sampleRecord.attrs.get? "memory_usage_mb" = Option.none ∧
    sampleRecord.attrs.get? "request_id" = Option.none ∧
    sampleRecord.attrs.get? "stack_trace" = Option.none ∧
    ((CustomJSONFormatter.format_record defaultLoggingConfig sampleEnv sampleRecord).get?
        "execution_time_ms").isSome = defaultLoggingConfig.enable_execution_time_logging ∧
    CustomJSONFormatter.format_record
        { defaultLoggingConfig with enable_stack_trace_logging := false } sampleEnv sampleRecord =
      CustomJSONFormatter.format_record defaultLoggingConfig sampleEnv sampleRecord :=
  ⟨rfl, rfl, rfl, rfl,
   (C6_flag_governance defaultLoggingConfig sampleEnv sampleRecord false rfl rfl rfl rfl).1,
   (C6_flag_governance defaultLoggingConfig sampleEnv sampleRecord false rfl rfl rfl rfl).2.2.2.2⟩

/-- C7: for every record of severity ERROR or CRITICAL with no attached
exception triple, the emitted `stack_trace` equals the fixed sentinel of
`custom_json_formatter.py` line 148 (and `format` leaves it untouched,
since its own stack-trace assignment needs `exc_info`). -/
theorem C7_missing_excinfo_sentinel (cfg : LoggingConfig) (env : Env) (r : LogRecord)
    (hl : r.level = Level.ERROR ∨ r.level = Level.CRITICAL)
    (he : r.exc_info = Option.none) :
    (CustomJSONFormatter.format_record cfg env r).get? "stack_trace" =
      some (.str "⚠️ Exception occurred, but no exception info was available.") := by
  have hec : r.level.isErrorOrCritical = true := by
    rcases hl with h | h <;> rw [h] <;> decide
  exact CustomJSONFormatter.fr_stack_trace_sentinel cfg env r hec he

/-- An ERROR record with no exception attached. -/
def recErrorNoExc : LogRecord :=
  { sampleRecord with level := .ERROR }

/-- C7, witness at a concrete ERROR record without exception info. -/
theorem C7_witness :
    (recErrorNoExc.level = Level.ERROR ∨ recErrorNoExc.level = Level.CRITICAL) ∧
    recErrorNoExc.exc_info = Option.none ∧
    (CustomJSONFormatter.format_record defaultLoggingConfig sampleEnv recErrorNoExc).get?
        "stack_trace" =
      some (.str "⚠️ Exception occurred, but no exception info was available.") :=
  ⟨Or.inl rfl, rfl,
   C7_missing_excinfo_sentinel defaultLoggingConfig sampleEnv recErrorNoExc (Or.inl rfl) rfl⟩

/-- C8: `memory_usage_mb` is written exactly when `enable_memory_logging` is
on (for records not already carrying such an attribute), always with the
memory probe's value; and the probe is total — a successful query yields the
resident size in megabytes rounded to two decimals, while each caught
`psutil` failure yields the string `"UNKNOWN"` rather than an exception. -/
theorem C8_memory_probe (cfg : LoggingConfig) (env : Env) (r : LogRecord) :
    (cfg.enable_memory_logging = true →
      (CustomJSONFormatter.format_record cfg env r).get? "memory_usage_mb" =
        some (get_memory_usage env.mem)) ∧
    (cfg.enable_memory_logging = false → r.attrs.get? "memory_usage_mb" = Option.none →
      (CustomJSONFormatter.format_record cfg env r).get? "memory_usage_mb" = Option.none) ∧
    (∀ rss : Nat, get_memory_usage (.ok rss) = .num (round2 ((rss : ℚ) / (1024 * 1024)))) ∧
    get_memory_usage .noSuchProcess = .str "UNKNOWN" ∧
    get_memory_usage .accessDenied = .str "UNKNOWN" ∧
    get_memory_usage .zombieProcess = .str "UNKNOWN" := by
  refine ⟨fun hf => ?_, fun hf ha => ?_, fun rss => rfl, rfl, rfl, rfl⟩
  · exact CustomJSONFormatter.fr_mem_on cfg env r hf
  · rw [CustomJSONFormatter.fr_mem_off cfg env r hf, ha]

/-- C8, witness: memory logging enabled with a denied probe yields the
`"UNKNOWN"` sentinel in the emitted record. -/
theorem C8_witness :
    defaultLoggingConfig.enable_memory_logging = true ∧
    (CustomJSONFormatter.format_record defaultLoggingConfig sampleEnv sampleRecord).get?
        "memory_usage_mb" = some (get_memory_usage sampleEnv.mem) ∧
    get_memory_usage sampleEnv.mem = .str "UNKNOWN" :=
  ⟨rfl, (C8_memory_probe defaultLoggingConfig sampleEnv sampleRecord).1 rfl, rfl⟩

/-- C9: when the record has no `trace_id` (resp. `span_id`) attribute,
`json_record` stores `"UNKNOWN"` no matter what the supplied `extra`
dictionary holds under those keys: the fallback at lines 107-108 calls
`getattr` on the dictionary object, which never sees its mapping items. -/
theorem C9_trace_span_attr_fallback (cfg : LoggingConfig) (env : Env) (lr : LogRecord)
    (message : String) (extra : Dict)
    (h1 : lr.attrs.get? "trace_id" = Option.none)
    (h2 : lr.attrs.get? "span_id" = Option.none) :
    (CustomJSONFormatter.json_record cfg env lr message (some extra)).get? "trace_id" =
      some (.str "UNKNOWN") ∧
    (CustomJSONFormatter.json_record cfg env lr message (some extra)).get? "span_id" =
      some (.str "UNKNOWN") := by
  unfold CustomJSONFormatter.json_record
  rcases hre : lr.exc_info with _ | e <;>
    constructor <;>
      simp [hre, CustomJSONFormatter.stackTraceUpdate_get?_ne, dict_getattr,
        LogRecord.getattr?, h1, h2]

/-- C9, witness: an extra dictionary that does carry `trace_id` and
`span_id` keys, which are nevertheless ignored. -/
theorem C9_witness :
    sampleRecord.attrs.get? "trace_id" = Option.none ∧
    sampleRecord.attrs.get? "span_id" = Option.none ∧
    Dict.get? [("trace_id", .str "tr-77"), ("span_id", .str "sp-88")] "trace_id" =
      some (.str "tr-77") ∧
    (CustomJSONFormatter.json_record defaultLoggingConfig sampleEnv sampleRecord "m"
        (some [("trace_id", .str "tr-77"), ("span_id", .str "sp-88")])).get? "trace_id" =
      some (.str "UNKNOWN") ∧
    (CustomJSONFormatter.json_record defaultLoggingConfig sampleEnv sampleRecord "m"
        (some [("trace_id", .str "tr-77"), ("span_id", .str "sp-88")])).get? "span_id" =
      some (.str "UNKNOWN") :=
  ⟨rfl, rfl, rfl,
   (C9_trace_span_attr_fallback defaultLoggingConfig sampleEnv sampleRecord "m"
     [("trace_id", .str "tr-77"), ("span_id", .str "sp-88")] rfl rfl).1,
   (C9_trace_span_attr_fallback defaultLoggingConfig sampleEnv sampleRecord "m"
     [("trace_id", .str "tr-77"), ("span_id", .str "sp-88")] rfl rfl).2⟩

/-- C10: a non-`dict` `extra` argument (modelled by `Option.none`, e.g. the
default `None`) is normalized by lines 90-91 before any use, so the call
returns exactly the record produced for an empty metadata dictionary — and,
being a total function of its embedded inputs, it raises nothing. -/
theorem C10_non_dict_extra (cfg : LoggingConfig) (env : Env) (lr : LogRecord)
    (message : String) :
    CustomJSONFormatter.json_record cfg env lr message Option.none =
      CustomJSONFormatter.json_record cfg env lr message (some []) := rfl

/-- When every handler before the failing one succeeds, the failing handler
meets the threshold and so raises, and the inherited dispatch loop delivers
exactly to the threshold-meeting handlers placed before it: the exception
aborts the iteration, skipping every later handler for this record. -/
theorem QueueListener.handleFrom_fail (pre post : List Handler) (f : Handler) (lvl i : Nat)
    (hpre : ∀ h ∈ pre, h.failsOnHandle = false)
    (hf : f.failsOnHandle = true) (hlvl : f.threshold ≤ lvl) :
    QueueListener.handleFrom (pre ++ f :: post) lvl i =
      (thresholdIndicesFrom pre lvl i, some "Handler error") := by
  induction pre generalizing i with
  | nil => simp [QueueListener.handleFrom, thresholdIndicesFrom, hlvl, hf]
  | cons h rest ih =>
    have hh : h.failsOnHandle = false := hpre h (by simp)
    have hrest : ∀ h' ∈ rest, h'.failsOnHandle = false := fun h' hm => hpre h' (by simp [hm])
    by_cases ht : h.threshold ≤ lvl <;>
      simp [QueueListener.handleFrom, thresholdIndicesFrom, ht, hh, ih (i + 1) hrest]

/-- C3, counterexample: two sinks both meeting the record's threshold, the
first one failing. The claim says the record is still delivered to every
other configured sink; here the second sink (index 1) receives nothing,
because the single `try` of `SafeQueueListener.handle` wraps the whole
handler loop, not each forward call. -/
theorem C3_counterexample :
    (SafeQueueListener.handle [⟨10, true⟩, ⟨10, false⟩] 40).delivered = [] ∧
    (⟨10, false⟩ : Handler).threshold ≤ 40 ∧
    ¬(1 ∈ (SafeQueueListener.handle [⟨10, true⟩, ⟨10, false⟩] 40).delivered) ∧
    (SafeQueueListener.handle [⟨10, true⟩, ⟨10, false⟩] 40).errorReported = true := by
  decide

/-- C3, amended: when exactly one sink's write raises (and the record meets
its threshold), the exception is caught and reported to the last-resort
diagnostic channel, the worker goes on to the next queued record, and the
sinks placed before the failing one in registration order still receive the
record — but every sink after it is skipped for that record. -/
theorem C3_sink_isolation (pre post : List Handler) (f : Handler) (lvl : Nat)
    (queued : List Nat)
    (hpre : ∀ h ∈ pre, h.failsOnHandle = false)
    (hf : f.failsOnHandle = true) (hlvl : f.threshold ≤ lvl) :
    SafeQueueListener.handle (pre ++ f :: post) lvl =
      ⟨thresholdIndicesFrom pre lvl 0, true⟩ ∧
    SafeQueueListener.monitor (pre ++ f :: post) (lvl :: queued) =
      SafeQueueListener.handle (pre ++ f :: post) lvl ::
        SafeQueueListener.monitor (pre ++ f :: post) queued ∧
    (SafeQueueListener.monitor (pre ++ f :: post) (lvl :: queued)).length =
      (lvl :: queued).length := by
  refine ⟨?_, rfl, by simp [SafeQueueListener.monitor]⟩
  simp [SafeQueueListener.handle, QueueListener.handleFrom_fail pre post f lvl 0 hpre hf hlvl]

/-- C3, witness: one healthy sink before the failing one, one after; the
earlier sink still gets the record, the error is reported, and both queued
records are processed. -/
theorem C3_witness :
    (∀ h ∈ ([⟨10, false⟩] : List Handler), h.failsOnHandle = false) ∧
    (⟨20, true⟩ : Handler).failsOnHandle = true ∧
    (⟨20, true⟩ : Handler).threshold ≤ 40 ∧
    SafeQueueListener.handle ([⟨10, false⟩] ++ ⟨20, true⟩ :: [⟨15, false⟩]) 40 =
      ⟨thresholdIndicesFrom [⟨10, false⟩] 40 0, true⟩ ∧
    (SafeQueueListener.monitor ([⟨10, false⟩] ++ ⟨20, true⟩ :: [⟨15, false⟩]) [40, 30]).length =
      2 :=
  ⟨by decide, rfl, by decide,
   (C3_sink_isolation [⟨10, false⟩] [⟨15, false⟩] ⟨20, true⟩ 40 [30]
     (by decide) rfl (by decide)).1,
   (C3_sink_isolation [⟨10, false⟩] [⟨15, false⟩] ⟨20, true⟩ 40 [30]
     (by decide) rfl (by decide)).2.2⟩

/-- C4, counterexample: previously installed handlers exist and the first
`addHandler` call raises (the scenario of
`test_exception_handling_in_configure_logging`, which patches
`Logger.addHandler`). One wrapped `LoggingConfigurationError` is raised, but
the handler list was already cleared at line 97 and is not restored: the
previous pipeline does not remain authoritative. -/
theorem C4_counterexample :
    (configure_logging defaultLoggingConfig ⟨some 11, "Unexpected failure"⟩
        ⟨["previous_handler"], "WARNING", true⟩).1 =
      .error "❌ Error configuring logging: Unexpected failure" ∧
    (configure_logging defaultLoggingConfig ⟨some 11, "Unexpected failure"⟩
        ⟨["previous_handler"], "WARNING", true⟩).2.handlers = [] ∧
    (["previous_handler"] : List String) ≠ [] := by
  refine ⟨rfl, rfl, by decide⟩

/-- C4, amended: a failure injected at any bootstrap statement yields
exactly one `LoggingConfigurationError` whose message wraps the original
cause; and for failures up to and including the handler-clearing statement
(in particular all of directory creation, file creation and permissions,
sink construction, and queue/worker construction and start), the
pre-existing root logger is left untouched. A failure later in step 5,
after the clear, leaves a partially installed handler set instead. -/
theorem C4_bootstrap_failure (cfg : LoggingConfig) (init : RootLoggerState) (fs : FailureSpec)
    (i : Nat) (hi : fs.failStep = some i) (hlt : i < 20) :
    (configure_logging cfg fs init).1 =
      .error ("❌ Error configuring logging: " ++ fs.failMsg) ∧
    (i ≤ 10 → (configure_logging cfg fs init).2 = init) := by
  interval_cases i <;>
    refine ⟨by simp [configure_logging, bootstrapSteps, runBootstrapFrom, hi], fun hle => ?_⟩ <;>
    first
      | exact absurd hle (by omega)
      | simp [configure_logging, bootstrapSteps, runBootstrapFrom, hi]

/-- C4, witness: a chmod failure (step 2) raises the wrapped error and
leaves the previous root logger exactly as it was. -/
theorem C4_witness :
    (⟨some 2, "Permission denied"⟩ : FailureSpec).failStep = some 2 ∧ 2 < 20 ∧ 2 ≤ 10 ∧
    (configure_logging defaultLoggingConfig ⟨some 2, "Permission denied"⟩
        ⟨["previous_handler"], "WARNING", true⟩).1 =
      .error ("❌ Error configuring logging: " ++ "Permission denied") ∧
    (configure_logging defaultLoggingConfig ⟨some 2, "Permission denied"⟩
        ⟨["previous_handler"], "WARNING", true⟩).2 =
      ⟨["previous_handler"], "WARNING", true⟩ :=
  ⟨rfl, by decide, by decide,
   (C4_bootstrap_failure defaultLoggingConfig ⟨["previous_handler"], "WARNING", true⟩
     ⟨some 2, "Permission denied"⟩ 2 rfl (by decide)).1,
   (C4_bootstrap_failure defaultLoggingConfig ⟨["previous_handler"], "WARNING", true⟩
     ⟨some 2, "Permission denied"⟩ 2 rfl (by decide)).2 (by decide)⟩

/-- Every value of the dictionary is JSON-serializable without a hook. -/
def SerOK (d : Dict) : Prop := ∀ kv ∈ d, kv.2.serializable = true

/-- Every value is serializable, except that the `"time"` key may instead
hold the library's `datetime` stamp (line 126 converts it later). -/
def SerTime (d : Dict) : Prop :=
  ∀ kv ∈ d, kv.2.serializable = true ∨ (kv.1 = "time" ∧ ∃ s, kv.2 = PyVal.datetime s)

/-- The dictionary binds each key at most once (true of every Python dict,
and preserved by `Dict.set`). -/
def NodupKeys (d : Dict) : Prop := (d.map Prod.fst).Nodup

theorem Dict.mem_set (d : Dict) (k : String) (v : PyVal) (kv : String × PyVal)
    (h : kv ∈ d.set k v) : kv = (k, v) ∨ kv ∈ d := by
  induction d with
  | nil =>
    simp [Dict.set] at h
    exact Or.inl h
  | cons hd tl ih =>
    obtain ⟨k₀, v₀⟩ := hd
    by_cases hk : k₀ = k
    · subst hk
      simp only [Dict.set, if_pos rfl] at h
      rcases List.mem_cons.mp h with h | h
      · exact Or.inl h
      · exact Or.inr (List.mem_cons_of_mem _ h)
    · simp only [Dict.set, if_neg hk] at h
      rcases List.mem_cons.mp h with h | h
      · exact Or.inr (by simp [h])
      · rcases ih h with h | h
        · exact Or.inl h
        · exact Or.inr (List.mem_cons_of_mem _ h)

theorem Dict.get?_mem (d : Dict) (k : String) (v : PyVal) (h : d.get? k = some v) :
    (k, v) ∈ d := by
  induction d with
  | nil => simp [Dict.get?] at h
  | cons hd tl ih =>
    obtain ⟨k₀, v₀⟩ := hd
    by_cases hk : k₀ = k
    · subst hk
      simp [Dict.get?] at h
      simp [h]
    · simp [Dict.get?, hk] at h
      exact List.mem_cons_of_mem _ (ih h)

theorem Dict.keys_set_subset (d : Dict) (k : String) (v : PyVal) :
    ∀ x ∈ (d.set k v).map Prod.fst, x = k ∨ x ∈ d.map Prod.fst := by
  intro x hx
  rcases List.mem_map.mp hx with ⟨kv, hkv, rfl⟩
  rcases Dict.mem_set d k v kv hkv with h | h
  · exact Or.inl (by rw [h])
  · exact Or.inr (List.mem_map_of_mem _ h)

theorem NodupKeys_set (d : Dict) (k : String) (v : PyVal) (h : NodupKeys d) :
    NodupKeys (d.set k v) := by
  induction d with
  | nil => simp [NodupKeys, Dict.set]
  | cons hd tl ih =>
    obtain ⟨k₀, v₀⟩ := hd
    rw [NodupKeys, List.map_cons, List.nodup_cons] at h
    obtain ⟨hk₀, htl⟩ := h
    by_cases hk : k₀ = k
    · subst hk
      rw [NodupKeys]
      simp only [Dict.set, if_true, eq_self_iff_true, List.map_cons, List.nodup_cons]
      exact ⟨hk₀, htl⟩
    · rw [NodupKeys]
      simp only [Dict.set, if_neg hk, List.map_cons, List.nodup_cons]
      refine ⟨fun hmem => ?_, ih htl⟩
      rcases Dict.keys_set_subset tl k v k₀ hmem with h | h
      · exact hk h
      · exact hk₀ h

theorem SerOK_set (d : Dict) (k : String) (v : PyVal) (hd : SerOK d)
    (hv : v.serializable = true) : SerOK (d.set k v) := by
  intro kv hkv
  rcases Dict.mem_set d k v kv hkv with h | h
  · rw [h]
    exact hv
  · exact hd kv h

theorem SerTime_of_SerOK (d : Dict) (h : SerOK d) : SerTime d :=
  fun kv hm => Or.inl (h kv hm)

theorem SerTime_set (d : Dict) (k : String) (v : PyVal) (hd : SerTime d)
    (hv : v.serializable = true) : SerTime (d.set k v) := by
  intro kv hkv
  rcases Dict.mem_set d k v kv hkv with h | h
  · rw [h]
    exact Or.inl hv
  · exact hd kv h

theorem SerTime_set_datetime (d : Dict) (s : String) (hd : SerTime d) :
    SerTime (d.set "time" (.datetime s)) := by
  intro kv hkv
  rcases Dict.mem_set d _ _ kv hkv with h | h
  · rw [h]
    exact Or.inr ⟨rfl, s, rfl⟩
  · exact hd kv h

/-- Re-binding `"time"` to a serializable value on a duplicate-free
`SerTime` dictionary makes every value serializable. -/
theorem SerOK_set_time (d : Dict) (v : PyVal) (hn : NodupKeys d) (hd : SerTime d)
    (hv : v.serializable = true) : SerOK (d.set "time" v) := by
  induction d with
  | nil =>
    intro kv hkv
    simp [Dict.set] at hkv
    rw [hkv]
    exact hv
  | cons hdp tl ih =>
    obtain ⟨k₀, v₀⟩ := hdp
    rw [NodupKeys, List.map_cons, List.nodup_cons] at hn
    obtain ⟨hk₀, htl⟩ := hn
    by_cases hk : k₀ = "time"
    · subst hk
      intro kv hkv
      simp only [Dict.set, if_pos rfl] at hkv
      rcases List.mem_cons.mp hkv with h | h
      · rw [h]
        exact hv
      · rcases hd kv (List.mem_cons_of_mem _ h) with hs | ⟨ht, _⟩
        · exact hs
        · have hmem : kv.1 ∈ tl.map Prod.fst := List.mem_map_of_mem _ h
          rw [ht] at hmem
          exact absurd hmem hk₀
    · intro kv hkv
      simp only [Dict.set, if_neg hk] at hkv
      rcases List.mem_cons.mp hkv with h | h
      · rw [h]
        rcases hd (k₀, v₀) (by simp) with hs | ⟨ht, _⟩
        · exact hs
        · exact absurd ht hk
      · exact ih htl (fun kv hm => hd kv (List.mem_cons_of_mem _ hm)) kv h

theorem ser_get_memory_usage (m : MemResult) : (get_memory_usage m).serializable = true := by
  cases m <;> rfl

theorem ser_timeToStr (d : Dict) (hd : SerTime d) :
    (CustomJSONFormatter.timeToStr (d.get? "time")).serializable = true := by
  rcases h : d.get? "time" with _ | v
  · rfl
  · rcases hd ("time", v) (Dict.get?_mem d _ _ h) with hs | ⟨_, s, rfl⟩
    · cases v <;> simp_all [CustomJSONFormatter.timeToStr, PyVal.serializable]
    · rfl

/-- The `"time"` conversion of line 126 leaves a fully serializable
dictionary behind. -/
theorem SerOK_convert_time (d : Dict) (hn : NodupKeys d) (hd : SerTime d) :
    SerOK (d.set "time" (CustomJSONFormatter.timeToStr (d.get? "time"))) :=
  SerOK_set_time d _ hn hd (ser_timeToStr d hd)

theorem SerOK_get (d : Dict) (k : String) (v : PyVal) (hd : SerOK d)
    (h : d.get? k = some v) : v.serializable = true :=
  hd (k, v) (Dict.get?_mem d k v h)

theorem LogRecord.getattr?_ser (r : LogRecord) (ha : SerOK r.attrs) (k : String) (v : PyVal)
    (h : r.getattr? k = some v) : v.serializable = true := by
  unfold LogRecord.getattr? at h
  split at h
  all_goals first
    | (injection h with h; subst h; rfl)
    | exact SerOK_get _ _ _ ha h

/-- `getD` of a record-attribute lookup with a serializable default. -/
theorem ser_attr_getD (r : LogRecord) (ha : SerOK r.attrs) (k : String) (x : PyVal)
    (hx : x.serializable = true) : ((r.getattr? k).getD x).serializable = true := by
  rcases ho : r.getattr? k with _ | v
  · exact hx
  · exact r.getattr?_ser ha k v ho

/-- `getD` of a dictionary lookup with a serializable default. -/
theorem ser_dict_getD (d : Dict) (hd : SerOK d) (k : String) (x : PyVal)
    (hx : x.serializable = true) : ((d.get? k).getD x).serializable = true := by
  rcases ho : d.get? k with _ | v
  · exact hx
  · exact SerOK_get d k v hd ho

theorem SerOK_ite_set (b : Bool) (d : Dict) (k : String) (v : PyVal) (hd : SerOK d)
    (hv : v.serializable = true) :
    SerOK (if b = true then d.set k v else d) := by
  split
  · exact SerOK_set d k v hd hv
  · exact hd

theorem NodupKeys_ite_set (b : Bool) (d : Dict) (k : String) (v : PyVal) (hd : NodupKeys d) :
    NodupKeys (if b = true then d.set k v else d) := by
  split
  · exact NodupKeys_set d k v hd
  · exact hd

namespace CustomJSONFormatter

theorem stackTraceUpdate_SerOK (env : Env) (lr : LogRecord) (d : Dict) (hd : SerOK d) :
    SerOK (stackTraceUpdate env lr d) := by
  unfold stackTraceUpdate
  split
  · split
    · split
      · exact SerOK_set _ _ _ hd rfl
      · split <;> exact SerOK_set _ _ _ hd rfl
    · exact SerOK_set _ _ _ hd rfl
  · exact hd

theorem timeFixup_SerOK (d : Dict) (hd : SerOK d) : SerOK (timeFixup d) := by
  unfold timeFixup
  split
  · exact SerOK_set _ _ _ hd rfl
  · exact hd

theorem base_json_record_SerTime (env : Env) (message : String) (extra : Dict)
    (lr : LogRecord) (hx : SerOK extra) :
    SerTime (base_json_record env message extra lr) := by
  unfold base_json_record
  have h1 : SerOK (extra.set "message" (.str message)) := SerOK_set _ _ _ hx rfl
  have h2 : SerTime (if ((extra.set "message" (.str message)).get? "time").isSome then
      extra.set "message" (.str message)
    else (extra.set "message" (.str message)).set "time" (.datetime env.now_iso)) := by
    split
    · exact SerTime_of_SerOK _ h1
    · exact SerTime_set_datetime _ _ (SerTime_of_SerOK _ h1)
  split
  · exact SerTime_set _ _ _ h2 rfl
  · exact h2

theorem base_json_record_NodupKeys (env : Env) (message : String) (extra : Dict)
    (lr : LogRecord) (hx : NodupKeys extra) :
    NodupKeys (base_json_record env message extra lr) := by
  unfold base_json_record
  have h1 : NodupKeys (extra.set "message" (.str message)) := NodupKeys_set _ _ _ hx
  have h2 : NodupKeys (if ((extra.set "message" (.str message)).get? "time").isSome then
      extra.set "message" (.str message)
    else (extra.set "message" (.str message)).set "time" (.datetime env.now_iso)) := by
    split
    · exact h1
    · exact NodupKeys_set _ _ _ h1
  split
  · exact NodupKeys_set _ _ _ h2
  · exact h2

end CustomJSONFormatter

/-- The standard `LogRecord` attribute names, in `__init__` insertion
order. -/
def standardAttrNames : List String :=
  ["name", "msg", "args", "levelname", "levelno", "pathname", "filename", "module",
   "exc_text", "stack_info", "lineno", "funcName", "created", "msecs", "relativeCreated",
   "thread", "threadName", "processName", "process"]

theorem keys_dictItems (r : LogRecord) :
    r.dictItems.map Prod.fst = standardAttrNames ++ r.attrs.map Prod.fst := by
  simp [LogRecord.dictItems, standardAttrNames]

theorem SerOK_dictItems (r : LogRecord) (ha : SerOK r.attrs) : SerOK r.dictItems := by
  intro kv hm
  rw [LogRecord.dictItems] at hm
  rcases List.mem_append.mp hm with h | h
  · fin_cases h <;> rfl
  · exact ha kv h

theorem NodupKeys_dictItems (r : LogRecord) (hn : NodupKeys r.attrs)
    (hd : ∀ k ∈ r.attrs.map Prod.fst, ¬k ∈ standardAttrNames) :
    NodupKeys r.dictItems := by
  rw [NodupKeys, keys_dictItems, List.nodup_append]
  refine ⟨by decide, hn, ?_⟩
  intro a ha hb
  exact hd a hb ha

theorem SerOK_filter (d : Dict) (p : String × PyVal → Bool) (hd : SerOK d) :
    SerOK (d.filter p) :=
  fun kv hm => hd kv (List.mem_of_mem_filter hm)

theorem NodupKeys_filter (d : Dict) (p : String × PyVal → Bool) (hd : NodupKeys d) :
    NodupKeys (d.filter p) :=
  ((List.filter_sublist d).map Prod.fst).nodup hd

/-- Every value `json_record` stores is serializable, provided the record's
dynamic attributes and the supplied extra dictionary hold serializable
values (the `datetime` the library stamps under `"time"` is converted by
line 126 before the dictionary is returned). -/
theorem CustomJSONFormatter.json_record_SerOK (cfg : LoggingConfig) (env : Env)
    (lr : LogRecord) (message : String) (extra : Dict)
    (ha : SerOK lr.attrs) (hx : SerOK extra) (hnx : NodupKeys extra) :
    SerOK (CustomJSONFormatter.json_record cfg env lr message (some extra)) := by
  unfold CustomJSONFormatter.json_record
  cases hreq : cfg.enable_request_metadata
  all_goals
    simp only [hreq, Option.getD_some, Bool.false_eq_true, eq_self_iff_true, if_true, if_false]
  any_goals apply CustomJSONFormatter.stackTraceUpdate_SerOK
  any_goals apply SerOK_ite_set
  any_goals apply SerOK_ite_set
  any_goals apply SerOK_convert_time
  any_goals repeat apply NodupKeys_set
  any_goals exact CustomJSONFormatter.base_json_record_NodupKeys env message extra lr hnx
  any_goals repeat apply SerTime_set
  any_goals exact CustomJSONFormatter.base_json_record_SerTime env message extra lr hx
  all_goals first
    | rfl
    | exact ser_get_memory_usage env.mem
    | apply ser_attr_getD lr ha
  all_goals first
    | rfl
    | exact ser_dict_getD extra hx _ _ rfl
    | simp [dict_getattr, PyVal.serializable]

/-- Every value in the structured dictionary `format` builds is
serializable, provided the record's own dynamic attributes are serializable
and their keys behave like real record attributes (no duplicates, no
collision with standard attribute names). -/
theorem CustomJSONFormatter.format_record_SerOK (cfg : LoggingConfig) (env : Env)
    (r : LogRecord) (ha : SerOK r.attrs) (hn : NodupKeys r.attrs)
    (hd : ∀ k ∈ r.attrs.map Prod.fst, ¬k ∈ standardAttrNames) :
    SerOK (CustomJSONFormatter.format_record cfg env r) := by
  have hx : SerOK (CustomJSONFormatter._extract_extra_fields r) :=
    SerOK_filter _ _ (SerOK_dictItems r ha)
  have hnx : NodupKeys (CustomJSONFormatter._extract_extra_fields r) :=
    NodupKeys_filter _ _ (NodupKeys_dictItems r hn hd)
  have hjs : SerOK (CustomJSONFormatter.json_record cfg env r r.msg
      (some (CustomJSONFormatter._extract_extra_fields r))) :=
    CustomJSONFormatter.json_record_SerOK cfg env r r.msg
      (CustomJSONFormatter._extract_extra_fields r) ha hx hnx
  unfold CustomJSONFormatter.format_record
  rcases hre : r.exc_info with _ | e
  all_goals simp only [hre]
  any_goals apply SerOK_set
  any_goals apply SerOK_ite_set
  any_goals apply SerOK_ite_set
  any_goals repeat apply SerOK_set
  any_goals apply CustomJSONFormatter.timeFixup_SerOK
  any_goals repeat apply SerOK_set
  any_goals exact hjs
  all_goals first
    | rfl
    | exact ser_get_memory_usage env.mem
    | apply ser_attr_getD r ha
  all_goals rfl

/-- A record whose event metadata carries a value `json.dumps` cannot
encode (an arbitrary Python object). -/
def recBadMeta : LogRecord :=
  { sampleRecord with attrs := [("payload", .obj "object instance")] }

/-- C5, counterexample: enrichment aborts on a record with a
non-serializable metadata value. `json_record` itself returns a dictionary,
but `format`'s final `json.dumps(structured_record)` call (line 76) has no
`default=` hook, so the `TypeError` escapes and no record is produced. -/
theorem C5_counterexample :
    CustomJSONFormatter.format defaultLoggingConfig sampleEnv recBadMeta =
      .error "TypeError: Object of type object is not JSON serializable" := by
  rfl

/-- C5, amended: the enrichment pipeline up to serialization never raises
(`json_record` and the stack-trace block are total, degrading to sentinels),
and for every record whose dynamic attributes are JSON-serializable — with
attribute keys unique and distinct from the standard `LogRecord` names, as
`logging` guarantees — `format` returns a serialized record. For a
non-serializable metadata value, however, the final `json.dumps` raises
`TypeError` and the record is lost, contrary to the claim. -/
theorem C5_enrichment_serializable (cfg : LoggingConfig) (env : Env) (r : LogRecord)
    (ha : SerOK r.attrs) (hn : NodupKeys r.attrs)
    (hd : ∀ k ∈ r.attrs.map Prod.fst, ¬k ∈ standardAttrNames) :
    ∃ s, CustomJSONFormatter.format cfg env r = .ok s := by
  have hall := CustomJSONFormatter.format_record_SerOK cfg env r ha hn hd
  have hcond : (CustomJSONFormatter.format_record cfg env r).all
      (fun kv => kv.2.serializable) = true :=
    List.all_eq_true.mpr (fun kv hm => hall kv hm)
  unfold CustomJSONFormatter.format dumps
  rw [hcond]
  exact ⟨_, rfl⟩

/-- C5, witness for the amended theorem at a concrete record. -/
theorem C5_witness :
    SerOK sampleRecord.attrs ∧ NodupKeys sampleRecord.attrs ∧
    (∀ k ∈ sampleRecord.attrs.map Prod.fst, ¬k ∈ standardAttrNames) ∧
    ∃ s, CustomJSONFormatter.format defaultLoggingConfig sampleEnv sampleRecord = .ok s :=
  ⟨by simp [SerOK, sampleRecord], by simp [NodupKeys, sampleRecord], by simp [sampleRecord],
   C5_enrichment_serializable defaultLoggingConfig sampleEnv sampleRecord
     (by simp [SerOK, sampleRecord]) (by simp [NodupKeys, sampleRecord])
     (by simp [sampleRecord])⟩
